import Mathlib

/-!
# Verification of the CloudWatch alarm notifier handler

A shallow embedding of `main.go` of the `cloudwatch-alarm-notifier-lambda`
repository, together with theorems about the handler's behaviour.

The program is a single AWS Lambda handler `HandleRequest`: it decodes each
SNS record's message body as a CloudWatch alarm event (ignoring decode
errors, so failed fields keep their zero values), classifies a display color
from the new state value, builds one Slack attachment per record in input
order, chunks the attachment list into groups of at most 100, submits each
group to the Slack client logging the per-group outcome, and always returns
a nil error.

External collaborators (the Go JSON decoder, the Slack HTTP client, the
wall clock, the environment-derived configuration) are modelled as explicit
function parameters; everything the repository's own code does is translated
directly.
-/

namespace AlarmNotifier

/-- `CloudWatchAlarmEventTrigger`, the nested trigger record of the alarm
event (`main.go`). `Threshold` is a `float32` in the source; it is modelled
as a rational number, which is exact for every value the claims touch. -/
structure CloudWatchAlarmEventTrigger where
  Period : Int
  EvaluationPeriods : Int
  ComparisonOperator : String
  Threshold : Rat
deriving Repr, DecidableEq

/-- `CloudWatchAlarmEvent`, decoded from one record's message body
(`main.go`). -/
structure CloudWatchAlarmEvent where
  AlarmName : String
  AlarmDescription : String
  AWSAccountID : String
  NewStateValue : String
  NewStateReason : String
  StateChangeTime : String
  Region : String
  OldStateValue : String
  Trigger : CloudWatchAlarmEventTrigger
deriving Repr, DecidableEq

/-- The Go zero value of `CloudWatchAlarmEventTrigger`: empty strings and
zero numbers. -/
def zeroTrigger : CloudWatchAlarmEventTrigger :=
  { Period := 0, EvaluationPeriods := 0, ComparisonOperator := "", Threshold := 0 }

/-- The Go zero value of `CloudWatchAlarmEvent`, the state of the struct
before `Decode` writes into it. -/
def zeroCloudWatchAlarmEvent : CloudWatchAlarmEvent :=
  { AlarmName := "", AlarmDescription := "", AWSAccountID := "",
    NewStateValue := "", NewStateReason := "", StateChangeTime := "",
    Region := "", OldStateValue := "", Trigger := zeroTrigger }

/-- One SNS entity of an incoming record: the fields of
`events.SNSEntity` the handler reads (`eventRecord.SNS.Subject` and
`eventRecord.SNS.Message`). -/
structure SNSEntity where
  Subject : String
  Message : String
deriving Repr, DecidableEq

/-- One record of the incoming batch (`events.SNSEventRecord`). -/
structure SNSEventRecord where
  SNS : SNSEntity
deriving Repr, DecidableEq

/-- The incoming batch (`events.SNSEvent`). -/
structure SNSEvent where
  Records : List SNSEventRecord
deriving Repr, DecidableEq

/-- One labeled display field of a Slack attachment
(`slack.AttachmentField` of the go-gadget-slack client). -/
structure AttachmentField where
  Title : String
  Value : String
  Short : Bool
deriving Repr, DecidableEq

/-- One Slack attachment (`slack.Attachment`), the message fragment built
from one record. -/
structure Attachment where
  Color : String
  Title : String
  Text : String
  Footer : String
  FooterIcon : String
  Ts : Int
  AttachmentField : List AttachmentField
deriving Repr, DecidableEq

/-- One Slack payload (`slack.Payload`): a channel plus a group of
attachments, the unit handed to `slackClient.Send`. -/
structure Payload where
  Channel : String
  Attachments : List Attachment
deriving Repr, DecidableEq

/-- The environment-derived configuration read in `init` and used by the
handler: the target channel (`SLACK_MONITOR_CHANNEL`) and the function name
(`AWS_LAMBDA_FUNCTION_NAME`) used as the attachment footer. -/
structure Config where
  slackMonitorChannel : String
  functionName : String
deriving Repr, DecidableEq

/-- `slackAttachmentsChunkSize`, set to 100 in `init` (`main.go` line 81):
Slack allows at most 100 attachments per post. -/
def slackAttachmentsChunkSize : Nat := 100

/-- One log line emitted by the handler through its `Info`, `Warning` or
`Error` logger. -/
inductive LogEvent where
  | infoLog : String → LogEvent
  | warningLog : String → LogEvent
  | errorLog : String → LogEvent
deriving Repr, DecidableEq

/-- Go's `fmt.Sprintf("%v", n)` on an `int`: decimal rendering. -/
def formatInt (n : Int) : String := toString n

/-- Go's `fmt.Sprintf("%v", t)` on the `float32` threshold, modelled on the
rational carrier; integral values render without a fractional part, which
agrees with Go on the zero default (the only threshold value the claims
inspect). -/
def formatThreshold (q : Rat) : String :=
  if q.den = 1 then toString q.num else toString q

/-- `color` computation of `HandleRequest` (`main.go` lines 97-102):
`"ALARM"` maps to `"danger"`, `"INSUFFICIENT_DATA"` to `"warning"`, every
other new state value keeps the initial `"good"`. -/
def classifyColor (newStateValue : String) : String :=
  if newStateValue == "ALARM" then "danger"
  else if newStateValue == "INSUFFICIENT_DATA" then "warning"
  else "good"

/-- The fixed footer icon URL of every attachment (`main.go` line 109). -/
def footerIconURL : String :=
  "https://d1d05r7k0qlw4w.cloudfront.net/dist-cbe91c5a8477701757ff6752aae4c6f892018972/img/favicon.ico"

/-- The `slack.Attachment` literal of `HandleRequest` (`main.go` lines
104-143), built from one decoded event, the record's subject and the
build-time timestamp `ts` (the value of `time.Now().UnixNano() / 1e9`). -/
def buildAttachment (cfg : Config) (ts : Int) (subject : String)
    (e : CloudWatchAlarmEvent) : Attachment :=
  { Color := classifyColor e.NewStateValue
    Title := subject
    Text := e.NewStateReason
    Footer := cfg.functionName
    FooterIcon := footerIconURL
    Ts := ts
    AttachmentField := [
      { Title := "AccountID", Value := e.AWSAccountID, Short := true },
      { Title := "Region", Value := e.Region, Short := true },
      { Title := "Period", Value := formatInt e.Trigger.Period, Short := true },
      { Title := "Threshold", Value := formatThreshold e.Trigger.Threshold, Short := true },
      { Title := "Evaluated Periods", Value := formatInt e.Trigger.EvaluationPeriods, Short := true },
      { Title := "Comparison Operator", Value := e.Trigger.ComparisonOperator, Short := true } ] }

/-- The per-record decode of `HandleRequest` (`main.go` lines 94-95):
`json.NewDecoder(strings.NewReader(msg)).Decode(&e)` with the error ignored.
The JSON decoder itself is Go library code, so it is a parameter `dec`; what
the repository's code contributes is the fallback: the struct starts at its
zero value and a failed decode leaves it there. -/
def decodeAlarm (dec : String → Option CloudWatchAlarmEvent) (msg : String) :
    CloudWatchAlarmEvent :=
  match dec msg with
  | some e => e
  | none => zeroCloudWatchAlarmEvent

/-- The accumulation loop of `HandleRequest` (`main.go` lines 93-145): one
attachment is appended per record, in input order. `i` counts the records
already processed; `tsOf i` is the wall-clock timestamp observed while
processing record `i` (the clock is an external collaborator, modelled as a
stream of readings). -/
def buildAttachments (dec : String → Option CloudWatchAlarmEvent) (cfg : Config)
    (tsOf : Nat → Int) : Nat → List SNSEventRecord → List Attachment
  | _, [] => []
  | i, r :: rs =>
      buildAttachment cfg (tsOf i) r.SNS.Subject (decodeAlarm dec r.SNS.Message)
        :: buildAttachments dec cfg tsOf (i + 1) rs

/-- Go slice expression `l[i:e]`: defined exactly when `i ≤ e ≤ len(l)`,
otherwise the program panics (`none`). -/
def goSlice (l : List α) (i e : Nat) : Option (List α) :=
  if i ≤ e ∧ e ≤ l.length then some ((l.take e).drop i) else none

/-- The chunking loop of `HandleRequest` (`main.go` lines 150-156) with the
Go slice's bounds check kept explicit: starting at index `i`, take
`l[i:end]` with `end = min (i + slackAttachmentsChunkSize) l.length` and
advance `i` by `slackAttachmentsChunkSize`; a panic (`none`) propagates. -/
def chunkLoopO (l : List α) (i : Nat) : Option (List (List α)) :=
  if i < l.length then
    match goSlice l i (min (i + slackAttachmentsChunkSize) l.length) with
    | none => none
    | some c => (chunkLoopO l (i + slackAttachmentsChunkSize)).map (fun cs => c :: cs)
  else some []
termination_by l.length - i
decreasing_by
  simp [slackAttachmentsChunkSize]
  omega

/-- The chunking loop of `HandleRequest` (`main.go` lines 150-156), total
form: the list of the successive slices `l[i:end]`. -/
def chunksGo (l : List α) (i : Nat) : List (List α) :=
  if i < l.length then
    ((l.take (min (i + slackAttachmentsChunkSize) l.length)).drop i)
      :: chunksGo l (i + slackAttachmentsChunkSize)
  else []
termination_by l.length - i
decreasing_by
  simp [slackAttachmentsChunkSize]
  omega

/-- The chunking loop, run with explicit fuel: `none` when the fuel is
exhausted before the loop exit condition is reached. Used to state that the
loop terminates. -/
def chunksGoFuel (fuel : Nat) (l : List α) (i : Nat) : Option (List (List α)) :=
  match fuel with
  | 0 => none
  | f + 1 =>
      if i < l.length then
        (chunksGoFuel f l (i + slackAttachmentsChunkSize)).map
          (fun cs => ((l.take (min (i + slackAttachmentsChunkSize) l.length)).drop i) :: cs)
      else some []

/-- The submission loop of `HandleRequest` (`main.go` lines 156-167): for
each chunk in order build a `slack.Payload` on the monitor channel, call
`Send`, and log the outcome (`Error.Println` on failure, `Info.Println` on
success) without stopping. The Slack client is an external collaborator:
`send n p` is the outcome of the `n`-th `Send` call of this invocation when
handed payload `p`. Returns the payloads sent, in call order, and the log
lines, in emission order. -/
def submitChunks (send : Nat → Payload → Except String String)
    (channel : String) : Nat → List (List Attachment) → List Payload × List LogEvent
  | _, [] => ([], [])
  | n, c :: cs =>
      let payload : Payload := { Channel := channel, Attachments := c }
      let rest := submitChunks send channel (n + 1) cs
      match send n payload with
      | Except.error e => (payload :: rest.1, LogEvent.errorLog e :: rest.2)
      | Except.ok r => (payload :: rest.1, LogEvent.infoLog r :: rest.2)

/-- Everything observable about one handler invocation: the payloads handed
to `Send` in order, the log lines in order, and the Go error value returned
to the Lambda runtime (`none` is Go's `nil`). -/
structure HandlerResult where
  sent : List Payload
  logs : List LogEvent
  returned : Option String
deriving Repr, DecidableEq

/-- `HandleRequest` (`main.go` lines 90-172): build one attachment per
record, then if any attachments exist chunk them and submit every chunk,
otherwise log `"No Slack Sent"`; finally return nil. -/
def HandleRequest (dec : String → Option CloudWatchAlarmEvent)
    (send : Nat → Payload → Except String String)
    (cfg : Config) (tsOf : Nat → Int) (event : SNSEvent) : HandlerResult :=
  let slackAttachments := buildAttachments dec cfg tsOf 0 event.Records
  if slackAttachments.length ≠ 0 then
    let r := submitChunks send cfg.slackMonitorChannel 0 (chunksGo slackAttachments 0)
    { sent := r.1, logs := r.2, returned := none }
  else
    { sent := [], logs := [LogEvent.warningLog "No Slack Sent"], returned := none }

/-! ## Chunking lemmas

`chunksSpec` is a proof-internal restatement of the chunking loop by
structural descent on the list (take a chunk, recurse on the rest); the
bridge lemma `chunksGo_eq_spec` shows the index-based loop of the source
computes it. -/

/-- Structural form of the chunking loop, used only inside proofs. -/
def chunksSpec (l : List α) : List (List α) :=
  if l.isEmpty then []
  else l.take slackAttachmentsChunkSize :: chunksSpec (l.drop slackAttachmentsChunkSize)
termination_by l.length
decreasing_by
  rename_i he
  simp only [List.length_drop, slackAttachmentsChunkSize]
  rw [List.isEmpty_iff] at he
  have : l.length ≠ 0 := by
    intro h0
    exact he (List.eq_nil_of_length_eq_zero h0)
  omega

theorem length_pos_of_not_isEmpty (l : List α) (he : ¬ l.isEmpty = true) :
    0 < l.length := by
  rw [List.isEmpty_iff] at he
  cases l
  · exact absurd rfl he
  · simp

/-- The index-based chunking loop computes the structural chunking. -/
theorem chunksGo_eq_spec (l : List α) (i : Nat) :
    chunksGo l i = chunksSpec (l.drop i) := by
  induction i using chunksGo.induct (l := l) with
  | case1 i hi ih =>
    rw [chunksGo, chunksSpec]
    have hne : ¬ (l.drop i).isEmpty = true := by
      rw [List.isEmpty_iff]
      intro h
      have := congrArg List.length h
      simp at this
      omega
    rw [if_pos hi, if_neg hne, ih]
    have h1 : (l.take (min (i + slackAttachmentsChunkSize) l.length)).drop i
        = (l.drop i).take slackAttachmentsChunkSize := by
      rw [List.drop_take]
      rcases Nat.le_total (i + slackAttachmentsChunkSize) l.length with h | h
      · rw [Nat.min_eq_left h]
        congr 1
        omega
      · rw [Nat.min_eq_right h]
        rw [List.take_of_length_le, List.take_of_length_le]
        · simp
          omega
        · simp
    rw [h1, List.drop_drop]
  | case2 i hi =>
    rw [chunksGo, chunksSpec]
    have : (l.drop i).isEmpty = true := by
      rw [List.isEmpty_iff]
      apply List.drop_eq_nil_of_le
      omega
    simp [if_neg hi, this]

/-- Concatenating the chunks in order restores the original list. -/
theorem chunksSpec_flatten (l : List α) : (chunksSpec l).flatten = l := by
  induction l using chunksSpec.induct with
  | case1 l he =>
    rw [chunksSpec, if_pos he]
    rw [List.isEmpty_iff] at he
    simp [he]
  | case2 l he ih =>
    rw [chunksSpec, if_neg he]
    simp [ih, List.take_append_drop]

/-- The number of chunks is the length divided by the chunk size, rounded
up. -/
theorem chunksSpec_length (l : List α) :
    (chunksSpec l).length
      = (l.length + (slackAttachmentsChunkSize - 1)) / slackAttachmentsChunkSize := by
  induction l using chunksSpec.induct with
  | case1 l he =>
    rw [chunksSpec, if_pos he]
    rw [List.isEmpty_iff] at he
    simp [he, slackAttachmentsChunkSize]
  | case2 l he ih =>
    rw [chunksSpec, if_neg he]
    simp only [List.length_cons, ih, List.length_drop]
    have hl : 0 < l.length := length_pos_of_not_isEmpty l he
    simp only [slackAttachmentsChunkSize] at *
    omega

/-- Every chunk except possibly the last is exactly the chunk size. -/
theorem chunksSpec_dropLast (l : List α) :
    ∀ c ∈ (chunksSpec l).dropLast, c.length = slackAttachmentsChunkSize := by
  induction l using chunksSpec.induct with
  | case1 l he =>
    rw [chunksSpec, if_pos he]
    simp
  | case2 l he ih =>
    rw [chunksSpec, if_neg he]
    rcases h : chunksSpec (l.drop slackAttachmentsChunkSize) with _ | ⟨c, cs⟩
    · simp
    · rw [h] at ih
      intro d hd
      rw [List.dropLast_cons₂] at hd
      rcases List.mem_cons.mp hd with rfl | hd
      · have hlen : slackAttachmentsChunkSize < l.length := by
          by_contra hc
          push_neg at hc
          have hnil : (l.drop slackAttachmentsChunkSize) = [] :=
            List.drop_eq_nil_of_le hc
          rw [hnil, chunksSpec] at h
          simp at h
        simp [List.length_take]
        omega
      · exact ih d hd

/-- The fuel-based loop computes the loop's result whenever the fuel
exceeds the number of list positions left. -/
theorem chunksGoFuel_sufficient (l : List α) :
    ∀ f i, l.length - i < f → chunksGoFuel f l i = some (chunksGo l i) := by
  intro f
  induction f with
  | zero =>
    intro i h
    omega
  | succ f ih =>
    intro i h
    by_cases hi : i < l.length
    · rw [chunksGoFuel, if_pos hi,
        ih (i + slackAttachmentsChunkSize) (by simp [slackAttachmentsChunkSize]; omega)]
      conv_rhs => rw [chunksGo, if_pos hi]
      rfl
    · rw [chunksGoFuel, if_neg hi, chunksGo, if_neg hi]

/-! ## Accumulation-loop lemmas -/

/-- The accumulation loop appends exactly one attachment per record. -/
theorem buildAttachments_length (dec : String → Option CloudWatchAlarmEvent)
    (cfg : Config) (tsOf : Nat → Int) (i : Nat) (rs : List SNSEventRecord) :
    (buildAttachments dec cfg tsOf i rs).length = rs.length := by
  induction rs generalizing i with
  | nil => rfl
  | cons r rs ih => simp [buildAttachments, ih]

/-- Position `j` of the accumulated attachments is built from record `j`,
with the `j`-th clock reading. -/
theorem buildAttachments_getElem (dec : String → Option CloudWatchAlarmEvent)
    (cfg : Config) (tsOf : Nat → Int) (i j : Nat) (rs : List SNSEventRecord) :
    (buildAttachments dec cfg tsOf i rs)[j]?
      = (rs[j]?).map (fun r =>
          buildAttachment cfg (tsOf (i + j)) r.SNS.Subject (decodeAlarm dec r.SNS.Message)) := by
  induction rs generalizing i j with
  | nil => simp [buildAttachments]
  | cons r rs ih =>
    cases j with
    | zero => simp [buildAttachments]
    | succ j =>
      simp only [buildAttachments, List.getElem?_cons_succ, ih (i + 1) j]
      have : i + 1 + j = i + (j + 1) := by omega
      rw [this]

/-! ## Submission-loop lemmas -/

/-- The submission loop hands every chunk to `Send` exactly once, in order,
as a payload on the given channel, and logs exactly one outcome per chunk
-- whatever the per-call outcomes are. -/
theorem submitChunks_spec (send : Nat → Payload → Except String String)
    (channel : String) (n : Nat) (cs : List (List Attachment)) :
    (submitChunks send channel n cs).1
        = cs.map (fun c => { Channel := channel, Attachments := c })
      ∧ (submitChunks send channel n cs).2.length = cs.length := by
  induction cs generalizing n with
  | nil => exact ⟨rfl, rfl⟩
  | cons c cs ih =>
    have h := ih (n + 1)
    rw [submitChunks]
    rcases hs : send n { Channel := channel, Attachments := c } with e | r
    · simpa [hs] using h
    · simpa [hs] using h

/-- The chunking loop on an empty list yields no chunks. -/
theorem chunksGo_nil (i : Nat) : chunksGo ([] : List Attachment) i = [] := by
  rw [chunksGo]
  simp

/-! ## Claim theorems -/

/-- C1: for a batch whose fragment list is `l` and chunk size
`slackAttachmentsChunkSize = 100`, the chunking loop yields exactly
`⌈l.length / 100⌉` groups; every group except possibly the last holds
exactly 100 fragments; and concatenating the groups in order restores `l`
exactly, so the groups are contiguous, in input order, and no fragment is
duplicated or dropped. -/
theorem chunking_partitions_fragments (l : List Attachment) :
    (chunksGo l 0).length
        = (l.length + (slackAttachmentsChunkSize - 1)) / slackAttachmentsChunkSize
      ∧ ((chunksGo l 0).dropLast.all fun c => c.length == slackAttachmentsChunkSize) = true
      ∧ (chunksGo l 0).flatten = l := by
  have hb : chunksGo l 0 = chunksSpec l := by
    simpa using chunksGo_eq_spec l 0
  refine ⟨?_, ?_, ?_⟩
  · rw [hb, chunksSpec_length]
  · rw [hb, List.all_eq_true]
    intro c hc
    simpa using chunksSpec_dropLast l c hc
  · rw [hb, chunksSpec_flatten]

/-- C8: the slice bounds taken by the chunking loop are always valid: the
loop with the Go slice's bounds check kept explicit (`chunkLoopO`) never
reaches its out-of-range branch and agrees with the total loop `chunksGo`;
moreover at every in-range index `j` the slice bounds satisfy
`j < end ≤ length` with `end = min (j + chunkSize) length`. -/
theorem chunking_slices_in_bounds (l : List Attachment) (i : Nat) :
    chunkLoopO l i = some (chunksGo l i)
      ∧ ((List.range l.length).all fun j =>
          decide (j < min (j + slackAttachmentsChunkSize) l.length)
            && decide (min (j + slackAttachmentsChunkSize) l.length ≤ l.length)) = true := by
  constructor
  · induction i using chunksGo.induct (l := l) with
    | case1 i hi ih =>
      rw [chunkLoopO, chunksGo, if_pos hi, if_pos hi]
      have hcond : i ≤ min (i + slackAttachmentsChunkSize) l.length
          ∧ min (i + slackAttachmentsChunkSize) l.length ≤ l.length := by
        constructor
        · omega
        · omega
      rw [goSlice, if_pos hcond, ih]
      rfl
    | case2 i hi =>
      rw [chunkLoopO, chunksGo, if_neg hi, if_neg hi]
  · rw [List.all_eq_true]
    intro j hj
    rw [List.mem_range] at hj
    simp only [Bool.and_eq_true, decide_eq_true_eq, slackAttachmentsChunkSize]
    omega

/-- C9: the chunking loop terminates on every finite fragment list: run
with `l.length + 1` units of fuel it already reaches its exit condition and
returns the loop's result, because the index strictly increases by the
fixed positive constant `slackAttachmentsChunkSize = 100` each iteration. -/
theorem chunking_loop_terminates (l : List Attachment) :
    chunksGoFuel (l.length + 1) l 0 = some (chunksGo l 0) :=
  chunksGoFuel_sufficient l (l.length + 1) 0 (by omega)

/-- C2: every batch of `N` records yields exactly `N` message fragments,
one per record, in input order: the fragment at position `j` is built from
the record at position `j` (with the `j`-th clock reading). -/
theorem one_fragment_per_record (dec : String → Option CloudWatchAlarmEvent)
    (cfg : Config) (tsOf : Nat → Int) (event : SNSEvent) :
    (buildAttachments dec cfg tsOf 0 event.Records).length = event.Records.length
      ∧ ∀ j : Nat,
          (buildAttachments dec cfg tsOf 0 event.Records)[j]?
            = (event.Records[j]?).map (fun r =>
                buildAttachment cfg (tsOf j) r.SNS.Subject (decodeAlarm dec r.SNS.Message)) := by
  refine ⟨buildAttachments_length dec cfg tsOf 0 event.Records, fun j => ?_⟩
  simpa using buildAttachments_getElem dec cfg tsOf 0 j event.Records

/-- C3: the severity classification is a total function of the decoded new
state string: `"ALARM"` yields the danger tag, `"INSUFFICIENT_DATA"` the
warning tag, and every other string -- including the empty string and
`"OK"` -- the good tag. -/
theorem severity_classification_total (s : String) :
    classifyColor "ALARM" = "danger"
      ∧ classifyColor "INSUFFICIENT_DATA" = "warning"
      ∧ classifyColor "" = "good"
      ∧ classifyColor "OK" = "good"
      ∧ (s ≠ "ALARM" → s ≠ "INSUFFICIENT_DATA" → classifyColor s = "good") := by
  refine ⟨rfl, rfl, rfl, rfl, fun h1 h2 => ?_⟩
  simp [classifyColor, h1, h2]

theorem severity_classification_total_witness :
    classifyColor "UNRECOGNIZED_STATE" = "good" :=
  (severity_classification_total "UNRECOGNIZED_STATE").2.2.2.2 (by decide) (by decide)

/-- C4: on the empty batch the handler makes no `Send` call at all and
emits the single warning log line `"No Slack Sent"` (and returns nil). -/
theorem empty_batch_sends_nothing (dec : String → Option CloudWatchAlarmEvent)
    (send : Nat → Payload → Except String String) (cfg : Config) (tsOf : Nat → Int) :
    HandleRequest dec send cfg tsOf { Records := [] }
      = { sent := [], logs := [LogEvent.warningLog "No Slack Sent"], returned := none } := rfl

/-- C5: a record whose body the decoder rejects still yields exactly one
fragment, built from the zero-valued alarm event -- so its alarm-derived
fields are the empty/zero defaults -- the batch keeps its full length, and
every record the decoder does parse, before or after the malformed one,
still yields its correct fragment. -/
theorem malformed_record_recovered (dec : String → Option CloudWatchAlarmEvent)
    (cfg : Config) (tsOf : Nat → Int) (rs : List SNSEventRecord)
    (j : Nat) (r : SNSEventRecord) (hj : rs[j]? = some r)
    (hbad : dec r.SNS.Message = none) :
    (buildAttachments dec cfg tsOf 0 rs).length = rs.length
      ∧ (buildAttachments dec cfg tsOf 0 rs)[j]?
          = some (buildAttachment cfg (tsOf j) r.SNS.Subject zeroCloudWatchAlarmEvent)
      ∧ buildAttachment cfg (tsOf j) r.SNS.Subject zeroCloudWatchAlarmEvent
          = { Color := "good", Title := r.SNS.Subject, Text := "",
              Footer := cfg.functionName, FooterIcon := footerIconURL, Ts := tsOf j,
              AttachmentField := [
                { Title := "AccountID", Value := "", Short := true },
                { Title := "Region", Value := "", Short := true },
                { Title := "Period", Value := "0", Short := true },
                { Title := "Threshold", Value := "0", Short := true },
                { Title := "Evaluated Periods", Value := "0", Short := true },
                { Title := "Comparison Operator", Value := "", Short := true } ] }
      ∧ ∀ (k : Nat) (e : SNSEventRecord) (a : CloudWatchAlarmEvent),
          rs[k]? = some e → dec e.SNS.Message = some a →
          (buildAttachments dec cfg tsOf 0 rs)[k]?
            = some (buildAttachment cfg (tsOf k) e.SNS.Subject a) := by
  refine ⟨buildAttachments_length dec cfg tsOf 0 rs, ?_, ?_, ?_⟩
  · have h := buildAttachments_getElem dec cfg tsOf 0 j rs
    rw [hj] at h
    simpa [decodeAlarm, hbad] using h
  · rfl
  · intro k e a hk ha
    have h := buildAttachments_getElem dec cfg tsOf 0 k rs
    rw [hk] at h
    simpa [decodeAlarm, ha] using h

/-- A record body every decoder attempt rejects, for exercising the
malformed-record theorems. -/
def malformedRecord : SNSEventRecord :=
  { SNS := { Subject := "alarm subject", Message := "this is not json" } }

/-- A decoder that rejects every body. -/
def decNone : String → Option CloudWatchAlarmEvent := fun _ => none

/-- A sample configuration. -/
def cfg0 : Config := { slackMonitorChannel := "#monitor", functionName := "notifier" }

/-- A constant clock. -/
def ts0 : Nat → Int := fun _ => 0

theorem malformed_record_recovered_witness :
    (buildAttachments decNone cfg0 ts0 0 [malformedRecord])[0]?
      = some (buildAttachment cfg0 (ts0 0) malformedRecord.SNS.Subject
          zeroCloudWatchAlarmEvent) :=
  (malformed_record_recovered decNone cfg0 ts0 [malformedRecord] 0 malformedRecord
    rfl rfl).2.1

/-- C6: the handler returns nil to its invoker for every batch, every
decoder and every pattern of submission outcomes: no failure propagates
upward. -/
theorem handler_always_returns_nil (dec : String → Option CloudWatchAlarmEvent)
    (send : Nat → Payload → Except String String) (cfg : Config) (tsOf : Nat → Int)
    (event : SNSEvent) :
    (HandleRequest dec send cfg tsOf event).returned = none := by
  rw [HandleRequest]
  split <;> rfl

/-- C7: whatever the per-group outcomes, the handler hands every group to
`Send`, exactly once each, in fragment order: the payloads sent are exactly
the chunks of the fragment list, in order, on the monitor channel; and the
submission loop logs exactly one outcome (success or failure) per group,
so a failed group neither halts, reorders, nor retries any other. -/
theorem all_groups_submitted (dec : String → Option CloudWatchAlarmEvent)
    (send : Nat → Payload → Except String String) (cfg : Config) (tsOf : Nat → Int)
    (event : SNSEvent) :
    (HandleRequest dec send cfg tsOf event).sent
        = (chunksGo (buildAttachments dec cfg tsOf 0 event.Records) 0).map
            (fun c => { Channel := cfg.slackMonitorChannel, Attachments := c })
      ∧ ∀ (n : Nat) (cs : List (List Attachment)),
          (submitChunks send cfg.slackMonitorChannel n cs).2.length = cs.length := by
  refine ⟨?_, fun n cs => (submitChunks_spec send cfg.slackMonitorChannel n cs).2⟩
  rw [HandleRequest]
  split
  · exact (submitChunks_spec send cfg.slackMonitorChannel 0 _).1
  · rename_i h
    push_neg at h
    have hnil : buildAttachments dec cfg tsOf 0 event.Records = [] :=
      List.eq_nil_of_length_eq_zero h
    rw [hnil, chunksGo_nil]
    rfl

/-- C10: a record whose body fails to decode entirely yields the
zero-valued alarm event, whose new state value is the empty string, so its
fragment is tagged with the good/neutral color -- never danger or
warning. -/
theorem malformed_record_color_good (dec : String → Option CloudWatchAlarmEvent)
    (cfg : Config) (tsOf : Nat → Int) (rs : List SNSEventRecord)
    (j : Nat) (r : SNSEventRecord) (hj : rs[j]? = some r)
    (hbad : dec r.SNS.Message = none) :
    ((buildAttachments dec cfg tsOf 0 rs)[j]?).map Attachment.Color = some "good" := by
  have h := buildAttachments_getElem dec cfg tsOf 0 j rs
  rw [hj] at h
  simp only [Nat.zero_add] at h
  rw [h]
  simp [decodeAlarm, hbad, buildAttachment, zeroCloudWatchAlarmEvent, classifyColor]

/-- A second rejected record body, for exercising the color default. -/
def malformedRecord2 : SNSEventRecord :=
  { SNS := { Subject := "another subject", Message := "also not json" } }

theorem malformed_record_color_good_witness :
    ((buildAttachments decNone cfg0 ts0 0 [malformedRecord2])[0]?).map Attachment.Color
      = some "good" :=
  malformed_record_color_good decNone cfg0 ts0 [malformedRecord2] 0 malformedRecord2
    rfl rfl

end AlarmNotifier
